import Mathlib

/-!
Verification of the HyperClean Bridge conversation-turn logic.

The JavaScript sources are shallowly embedded: strings are lists of
characters, the external providers (Anthropic completion, Twilio send,
ElevenLabs synthesis) are abstracted as outcome parameters, and each
Express/WebSocket handler becomes a pure function from its request fields
and the provider outcomes to the trace of externally visible actions
(HTTP status, response body, outbound send calls, broadcast events,
provider-call counts).
-/

/-- Strings are modelled as lists of characters. -/
abbrev Str := List Char

/-- Turn a Lean string literal into the list-of-characters model. -/
def w (s : String) : Str := s.data

/-- A character of the JavaScript regex class `\w`, i.e. `[A-Za-z0-9_]`. -/
def isWordChar (c : Char) : Bool :=
  decide (97 ≤ c.toNat ∧ c.toNat ≤ 122) || decide (65 ≤ c.toNat ∧ c.toNat ≤ 90) ||
  decide (48 ≤ c.toNat ∧ c.toNat ≤ 57) || decide (c.toNat = 95)

/-- ASCII model of JavaScript `String.prototype.toLowerCase` on one character:
`A`–`Z` maps to `a`–`z`, everything else is unchanged. -/
def lowerChar (c : Char) : Char :=
  if 65 ≤ c.toNat ∧ c.toNat ≤ 90 then Char.ofNat (c.toNat + 32) else c

/-- ASCII model of JavaScript `String.prototype.toLowerCase`. -/
def lowerStr (s : Str) : Str := s.map lowerChar

/-- Model of JavaScript `String.prototype.includes`: `needle` occurs as a
contiguous substring of `hay`. -/
def strContains (hay needle : Str) : Bool :=
  match hay with
  | [] => needle.isEmpty
  | c :: t => needle.isPrefixOf (c :: t) || strContains t needle

/-- The `\b` assertion to the left of a keyword that begins with a word
character: the previous character, when there is one, is not a word character. -/
def boundaryBefore (prev : Option Char) : Bool :=
  match prev with
  | none => true
  | some p => !isWordChar p

/-- The `\b` assertion to the right of a keyword that ends with a word
character: the next character, when there is one, is not a word character. -/
def boundaryAfter (rest : Str) : Bool :=
  match rest with
  | [] => true
  | c :: _ => !isWordChar c

/-- The keyword matches at the current position with a word boundary after it. -/
def wordAtHere (kw s : Str) : Bool :=
  kw.isPrefixOf s && boundaryAfter (s.drop kw.length)

/-- Scan the string for a `\b kw \b` match, carrying the previous character. -/
def hasWordAux (kw : Str) (prev : Option Char) (s : Str) : Bool :=
  match s with
  | [] => false
  | c :: t => (boundaryBefore prev && wordAtHere kw (c :: t)) || hasWordAux kw (some c) t

/-- Model of the regex test `/\bkw\b/.test(s)` for a keyword that begins and
ends with word characters (every keyword of `classifyIntent` does). -/
def hasWord (kw s : Str) : Bool := hasWordAux kw none s

/-- The four intent labels of `classifyIntent` (src/unnamed/part_000). -/
inductive Intent where
  | appointment
  | sales
  | support
  | general
deriving DecidableEq

/-- Alternatives of the first regex of `classifyIntent`:
`/\b(schedule|appointment|book|booking|cleaning date)\b/`. -/
def appointmentKeywords : List Str :=
  [w "schedule", w "appointment", w "book", w "booking", w "cleaning date"]

/-- Alternatives of the second regex: `/\b(quote|estimate|price|rate)\b/`. -/
def salesKeywords : List Str := [w "quote", w "estimate", w "price", w "rate"]

/-- Alternatives of the third regex: `/\b(problem|issue|complaint|support|help)\b/`. -/
def supportKeywords : List Str := [w "problem", w "issue", w "complaint", w "support", w "help"]

/-- A regex `/\b(k1|k2|...)\b/.test(s)` holds exactly when some alternative
matches as a whole word. -/
def matchesAnyWord (kws : List Str) (s : Str) : Bool := kws.any (fun k => hasWord k s)

/-- `classifyIntent` from src/unnamed/part_000 lines 145-151. The input is
`Option Str`: `none` models a missing (`null`/`undefined`) body, which
`String(body || '')` turns into the empty string. -/
def classifyIntent (body : Option Str) : Intent :=
  let lower := lowerStr (body.getD [])
  if matchesAnyWord appointmentKeywords lower then Intent.appointment
  else if matchesAnyWord salesKeywords lower then Intent.sales
  else if matchesAnyWord supportKeywords lower then Intent.support
  else Intent.general

example : classifyIntent (some (w "please book me a quote")) = Intent.appointment := by decide
example : classifyIntent (some (w "hello there")) = Intent.general := by decide
example : classifyIntent none = Intent.general := by decide
example : classifyIntent (some (w "BOOK now")) = Intent.appointment := by decide
example : classifyIntent (some (w "rebooking")) = Intent.general := by decide

lemma lowerChar_of_not_word (c : Char) (h : isWordChar c = false) : lowerChar c = c := by
  simp only [isWordChar, Bool.or_eq_false_iff, decide_eq_false_iff_not] at h
  exact if_neg h.1.1.2

lemma boundaryBefore_lowerStr (prev : Option Char) (h : boundaryBefore prev = true) :
    boundaryBefore (prev.map lowerChar) = true := by
  cases prev with
  | none => rfl
  | some p =>
    have hp : isWordChar p = false := by simpa [boundaryBefore] using h
    show (!isWordChar (lowerChar p)) = true
    rw [lowerChar_of_not_word p hp, hp]
    rfl

lemma boundaryAfter_lowerStr (rest : Str) (h : boundaryAfter rest = true) :
    boundaryAfter (lowerStr rest) = true := by
  cases rest with
  | nil => rfl
  | cons c t =>
    have hc : isWordChar c = false := by simpa [boundaryAfter] using h
    show (!isWordChar (lowerChar c)) = true
    rw [lowerChar_of_not_word c hc, hc]
    rfl

lemma isPrefixOf_lowerStr (kw : Str) (hk : ∀ c ∈ kw, lowerChar c = c) :
    ∀ s : Str, kw.isPrefixOf s = true → kw.isPrefixOf (lowerStr s) = true := by
  induction kw with
  | nil => intro s _; cases s <;> rfl
  | cons a ka ih =>
    intro s h
    cases s with
    | nil => simp [List.isPrefixOf] at h
    | cons b sb =>
      simp only [List.isPrefixOf, Bool.and_eq_true, beq_iff_eq] at h
      obtain ⟨rfl, h2⟩ := h
      simp only [lowerStr, List.map_cons, List.isPrefixOf, Bool.and_eq_true, beq_iff_eq]
      refine ⟨(hk a (List.mem_cons_self a ka)).symm, ?_⟩
      exact ih (fun c hc => hk c (List.mem_cons_of_mem _ hc)) sb h2

lemma wordAtHere_lowerStr (kw : Str) (hk : ∀ c ∈ kw, lowerChar c = c)
    (s : Str) (h : wordAtHere kw s = true) : wordAtHere kw (lowerStr s) = true := by
  simp only [wordAtHere, Bool.and_eq_true] at h ⊢
  refine ⟨isPrefixOf_lowerStr kw hk s h.1, ?_⟩
  have hdrop : lowerStr (s.drop kw.length) = (lowerStr s).drop kw.length := by
    simp [lowerStr, List.map_drop]
  rw [← hdrop]
  exact boundaryAfter_lowerStr _ h.2

lemma hasWordAux_lowerStr (kw : Str) (hk : ∀ c ∈ kw, lowerChar c = c) :
    ∀ (s : Str) (prev : Option Char), hasWordAux kw prev s = true →
      hasWordAux kw (prev.map lowerChar) (lowerStr s) = true := by
  intro s
  induction s with
  | nil => intro prev h; simp [hasWordAux] at h
  | cons c t ih =>
    intro prev h
    simp only [hasWordAux, Bool.or_eq_true, Bool.and_eq_true] at h
    simp only [lowerStr, List.map_cons, hasWordAux, Bool.or_eq_true, Bool.and_eq_true]
    cases h with
    | inl h =>
      left
      refine ⟨boundaryBefore_lowerStr prev h.1, ?_⟩
      have := wordAtHere_lowerStr kw hk (c :: t) h.2
      simpa [lowerStr] using this
    | inr h =>
      right
      have := ih (some c) h
      simpa [lowerStr] using this

/-- Whole-word containment of an all-lowercase keyword is preserved by
lowercasing the text. -/
lemma hasWord_lowerStr (kw : Str) (hk : ∀ c ∈ kw, lowerChar c = c)
    (s : Str) (h : hasWord kw s = true) : hasWord kw (lowerStr s) = true :=
  hasWordAux_lowerStr kw hk s none h

lemma matchesAnyWord_of_mem {kw : Str} {kws : List Str} (hmem : kw ∈ kws)
    {s : Str} (h : hasWord kw s = true) : matchesAnyWord kws s = true := by
  simp only [matchesAnyWord, List.any_eq_true]
  exact ⟨kw, hmem, h⟩

/-- C1: `classifyIntent` is a total deterministic function into the four
intent labels; the keyword checks run in the fixed order appointment, sales,
support; any text containing both the whole words "book" and "quote"
classifies as appointment (the appointment regex runs first); a text whose
lowercasing matches none of the three keyword regexes classifies as general. -/
theorem classifyIntent_spec :
    (∀ b : Option Str,
       classifyIntent b = Intent.appointment ∨ classifyIntent b = Intent.sales ∨
       classifyIntent b = Intent.support ∨ classifyIntent b = Intent.general) ∧
    (∀ s : Str, hasWord (w "book") s = true → hasWord (w "quote") s = true →
       classifyIntent (some s) = Intent.appointment) ∧
    (∀ s : Str,
       matchesAnyWord appointmentKeywords (lowerStr s) = false →
       matchesAnyWord salesKeywords (lowerStr s) = false →
       matchesAnyWord supportKeywords (lowerStr s) = false →
       classifyIntent (some s) = Intent.general) := by
  refine ⟨?_, ?_, ?_⟩
  · intro b
    by_cases h1 : matchesAnyWord appointmentKeywords (lowerStr (b.getD [])) = true
    · left; simp [classifyIntent, h1]
    · by_cases h2 : matchesAnyWord salesKeywords (lowerStr (b.getD [])) = true
      · right; left; simp [classifyIntent, h1, h2]
      · by_cases h3 : matchesAnyWord supportKeywords (lowerStr (b.getD [])) = true
        · right; right; left; simp [classifyIntent, h1, h2, h3]
        · right; right; right; simp [classifyIntent, h1, h2, h3]
  · intro s hbook _
    have hlow : hasWord (w "book") (lowerStr s) = true :=
      hasWord_lowerStr (w "book") (by decide) s hbook
    have happ : matchesAnyWord appointmentKeywords (lowerStr s) = true :=
      matchesAnyWord_of_mem (by simp [appointmentKeywords]) hlow
    simp [classifyIntent, happ]
  · intro s h1 h2 h3
    simp [classifyIntent, h1, h2, h3]

/-- Witness for C1 at concrete inputs. -/
theorem classifyIntent_spec_witness :
    classifyIntent (some (w "please book me and send a quote")) = Intent.appointment ∧
    classifyIntent (some (w "good morning")) = Intent.general :=
  ⟨classifyIntent_spec.2.1 (w "please book me and send a quote") (by decide) (by decide),
   classifyIntent_spec.2.2 (w "good morning") (by decide) (by decide) (by decide)⟩

/-- Model of JavaScript `String.prototype.trim` (whitespace stripped from
both ends). -/
def trimStr (s : Str) : Str :=
  ((s.dropWhile Char.isWhitespace).reverse.dropWhile Char.isWhitespace).reverse

/-- Outcome of the Anthropic call made by `generateClaudeResponse`
(src/unnamed/part_000): `ok content` is a returned response whose optional
chain `msg?.choices?.[0]?.message?.content` yields `content` (`none` when any
link of the chain is absent, i.e. a malformed response); `err` is a thrown
error, timeout included. -/
inductive SmsProviderOutcome where
  | ok (content : Option Str)
  | err
deriving DecidableEq

/-- The fallback used when the provider response is malformed or trims to
empty (src/unnamed/part_000 line 128). -/
def smsEmptyFallback : Str :=
  w "Thank you for contacting HyperClean. We will get back to you shortly."

/-- The fallback returned from the catch block when the provider throws
(src/unnamed/part_000 line 131). -/
def smsErrorFallback : Str :=
  w "Thank you for reaching out to HyperClean. We will get back to you soon."

/-- `generateClaudeResponse` from src/unnamed/part_000 lines 109-133, as a
function of the provider outcome (the `from`/`to`/`body` inputs only feed the
prompt sent to the external provider and do not otherwise affect the result). -/
def generateClaudeResponse (o : SmsProviderOutcome) : Str :=
  match o with
  | SmsProviderOutcome.ok content =>
    match content.map trimStr with
    | some reply => if reply.isEmpty then smsEmptyFallback else reply
    | none => smsEmptyFallback
  | SmsProviderOutcome.err => smsErrorFallback

/-- The two service tiers of the quote table (src/unnamed/part_001). -/
inductive ServiceType where
  | standard
  | deep
deriving DecidableEq

/-- The nested `service` object of a quote: `{ type }`. -/
structure Service where
  type : ServiceType
deriving DecidableEq

/-- A quote `{ total, service: { type } }` (src/unnamed/part_001). -/
structure Quote where
  total : Nat
  service : Service
deriving DecidableEq

/-- `extractQuote` from src/unnamed/part_001 lines 44-52. The source also
takes a `context` argument that it never reads; it is omitted here. -/
def extractQuote (text : Str) : Option Quote :=
  if strContains text (w "$149") || strContains text (w "deep clean") then
    some ⟨149, ⟨ServiceType.deep⟩⟩
  else if strContains text (w "$129") || strContains text (w "standard clean") then
    some ⟨129, ⟨ServiceType.standard⟩⟩
  else none

/-- Outcome of the Anthropic call made by `getCompletion`
(src/unnamed/part_001): `ok text` is a response whose `content[0].text` is
`text`; `err` is a thrown error — including the TypeError thrown inside the
same `try` when the response shape is malformed (`content[0]` absent). -/
inductive VoiceProviderOutcome where
  | ok (text : Str)
  | err
deriving DecidableEq

/-- The `{text, quote}` object returned by `getCompletion`; the fallback
object carries no `quote` key, modelled as `none`. -/
structure CompletionResult where
  text : Str
  quote : Option Quote
deriving DecidableEq

/-- The fallback text of `getCompletion`'s catch block
(src/unnamed/part_001 line 35). -/
def voiceFallback : Str :=
  w "I'd be happy to help you book a cleaning. Let me text you our booking link."

/-- `getCompletion` from src/unnamed/part_001 lines 16-37, as a function of
the provider outcome (the `text`/`context` inputs only feed the external
provider). -/
def getCompletion (o : VoiceProviderOutcome) : CompletionResult :=
  match o with
  | VoiceProviderOutcome.ok t => ⟨t, extractQuote t⟩
  | VoiceProviderOutcome.err => ⟨voiceFallback, none⟩

/-- `streamCompletion` from src/unnamed/part_001 lines 39-42: it just
delegates to `getCompletion`. -/
def streamCompletion (o : VoiceProviderOutcome) : CompletionResult := getCompletion o

/-- C2 counterexample: when the provider call throws, the SMS-path completion
returns the catch-block string "Thank you for reaching out to HyperClean. We
will get back to you soon.", which is not the claimed fixed fallback "Thank
you for contacting HyperClean. We will get back to you shortly." (that string
is only used for malformed or empty responses). -/
theorem generateClaudeResponse_err_not_shortly :
    generateClaudeResponse SmsProviderOutcome.err ≠ smsEmptyFallback := by decide

/-- C2 amended: the completion operations never throw (they are total
functions of the provider outcome); on the SMS path a malformed response or a
response that trims to empty yields the "contacting … shortly" string while a
thrown provider failure yields the distinct "reaching out … soon" string; on
the voice/relay path any provider failure yields the fallback beginning
"I'd be happy to help you book a cleaning"; all three fallbacks are pairwise
distinct. -/
theorem complete_fallback_spec :
    generateClaudeResponse SmsProviderOutcome.err = smsErrorFallback ∧
    generateClaudeResponse (SmsProviderOutcome.ok none) = smsEmptyFallback ∧
    (∀ t : Str, trimStr t = [] →
       generateClaudeResponse (SmsProviderOutcome.ok (some t)) = smsEmptyFallback) ∧
    (getCompletion VoiceProviderOutcome.err).text = voiceFallback ∧
    (w "I'd be happy to help you book a cleaning").isPrefixOf voiceFallback = true ∧
    smsErrorFallback ≠ smsEmptyFallback ∧
    voiceFallback ≠ smsEmptyFallback ∧ voiceFallback ≠ smsErrorFallback := by
  refine ⟨rfl, rfl, ?_, rfl, by decide, by decide, by decide, by decide⟩
  intro t h
  simp [generateClaudeResponse, h]

/-- Witness for C2 at a concrete input. -/
theorem complete_fallback_spec_witness :
    generateClaudeResponse (SmsProviderOutcome.ok (some (w "   "))) = smsEmptyFallback :=
  complete_fallback_spec.2.2.1 (w "   ") (by decide)

/-- C6: the quote extractor's three rules, read off the source order:
deep markers first, then standard markers, then none. -/
theorem extractQuote_spec :
    (∀ t : Str, (strContains t (w "$149") || strContains t (w "deep clean")) = true →
       extractQuote t = some ⟨149, ⟨ServiceType.deep⟩⟩) ∧
    (∀ t : Str, (strContains t (w "$149") || strContains t (w "deep clean")) = false →
       (strContains t (w "$129") || strContains t (w "standard clean")) = true →
       extractQuote t = some ⟨129, ⟨ServiceType.standard⟩⟩) ∧
    (∀ t : Str, (strContains t (w "$149") || strContains t (w "deep clean")) = false →
       (strContains t (w "$129") || strContains t (w "standard clean")) = false →
       extractQuote t = none) := by
  refine ⟨?_, ?_, ?_⟩
  · intro t h; simp [extractQuote, h]
  · intro t h1 h2; simp [extractQuote, h1, h2]
  · intro t h1 h2; simp [extractQuote, h1, h2]

/-- Witness for C6 at concrete inputs. -/
theorem extractQuote_spec_witness :
    extractQuote (w "A deep clean is $149 today") = some ⟨149, ⟨ServiceType.deep⟩⟩ ∧
    extractQuote (w "standard clean for $129") = some ⟨129, ⟨ServiceType.standard⟩⟩ ∧
    extractQuote (w "hello") = none :=
  ⟨extractQuote_spec.1 _ (by decide),
   extractQuote_spec.2.1 _ (by decide) (by decide),
   extractQuote_spec.2.2 _ (by decide) (by decide)⟩

/-- C10: the deep rule is checked strictly before the standard rule, so a
text with markers of both tiers yields the deep quote; any non-null result
has amount exactly 149 or exactly 129. -/
theorem extractQuote_precedence :
    (∀ t : Str, (strContains t (w "$149") || strContains t (w "deep clean")) = true →
       (strContains t (w "$129") || strContains t (w "standard clean")) = true →
       extractQuote t = some ⟨149, ⟨ServiceType.deep⟩⟩) ∧
    (∀ (t : Str) (q : Quote), extractQuote t = some q → q.total = 149 ∨ q.total = 129) := by
  constructor
  · intro t h1 _
    simp [extractQuote, h1]
  · intro t q h
    by_cases h1 : (strContains t (w "$149") || strContains t (w "deep clean")) = true
    · simp only [extractQuote, h1, if_true, Option.some.injEq] at h
      left; rw [← h]
    · rw [Bool.not_eq_true] at h1
      by_cases h2 : (strContains t (w "$129") || strContains t (w "standard clean")) = true
      · simp only [extractQuote, h1, h2, Bool.false_eq_true, if_false, if_true,
          Option.some.injEq] at h
        right; rw [← h]
      · rw [Bool.not_eq_true] at h2
        simp [extractQuote, h1, h2] at h

/-- Witness for C10 at a concrete input. -/
theorem extractQuote_precedence_witness :
    extractQuote (w "deep clean at the standard clean price of $129") =
      some ⟨149, ⟨ServiceType.deep⟩⟩ ∧
    ((Quote.mk 149 ⟨ServiceType.deep⟩).total = 149 ∨
     (Quote.mk 149 ⟨ServiceType.deep⟩).total = 129) :=
  ⟨extractQuote_precedence.1 _ (by decide) (by decide),
   extractQuote_precedence.2 (w "deep clean") ⟨149, ⟨ServiceType.deep⟩⟩ (by decide)⟩

/-- C9 counterexample: on the voice path the provider text is returned
verbatim, so a provider success with empty text gives an empty `text` field —
the claimed trim-and-fallback behaviour only exists on the SMS path. -/
theorem getCompletion_empty_text :
    (getCompletion (VoiceProviderOutcome.ok [])).text = [] := rfl

/-- C9 amended: the SMS-path completion `generateClaudeResponse` always
returns a non-empty string — on success it trims the provider text and
substitutes the fixed fallback when the trimmed text is empty or the response
malformed, and returns the error fallback when the provider throws — while
the voice-path `getCompletion` returns the provider text verbatim (untrimmed,
possibly empty) on success and the non-empty voice fallback on failure. -/
theorem completion_text_spec :
    (∀ o : SmsProviderOutcome, generateClaudeResponse o ≠ []) ∧
    (∀ t : Str, trimStr t ≠ [] →
       generateClaudeResponse (SmsProviderOutcome.ok (some t)) = trimStr t) ∧
    (∀ t : Str, trimStr t = [] →
       generateClaudeResponse (SmsProviderOutcome.ok (some t)) = smsEmptyFallback) ∧
    (∀ t : Str, (getCompletion (VoiceProviderOutcome.ok t)).text = t) ∧
    (getCompletion VoiceProviderOutcome.err).text = voiceFallback ∧
    voiceFallback ≠ [] := by
  refine ⟨?_, ?_, ?_, fun t => rfl, rfl, by decide⟩
  · intro o
    cases o with
    | err => decide
    | ok content =>
      cases content with
      | none => decide
      | some t =>
        by_cases h : (trimStr t).isEmpty = true
        · simp only [generateClaudeResponse, Option.map_some', h, if_true]
          decide
        · rw [Bool.not_eq_true] at h
          simp only [generateClaudeResponse, Option.map_some', h, Bool.false_eq_true, if_false]
          intro hnil
          rw [hnil] at h
          simp at h
  · intro t h
    have hne : (trimStr t).isEmpty = false := by
      cases he : trimStr t with
      | nil => exact absurd he h
      | cons a l => rfl
    simp [generateClaudeResponse, hne]
  · intro t h
    simp [generateClaudeResponse, h]

/-- Witness for C9 at concrete inputs. -/
theorem completion_text_spec_witness :
    generateClaudeResponse (SmsProviderOutcome.ok (some (w " hi "))) = trimStr (w " hi ") ∧
    generateClaudeResponse (SmsProviderOutcome.ok (some (w "  "))) = smsEmptyFallback ∧
    generateClaudeResponse SmsProviderOutcome.err ≠ [] :=
  ⟨completion_text_spec.2.1 (w " hi ") (by decide),
   completion_text_spec.2.2.1 (w "  ") (by decide),
   completion_text_spec.1 SmsProviderOutcome.err⟩

/-- JavaScript truthiness of an optional string field: a missing
(`undefined`) field and the empty string are both falsy. -/
def truthy (o : Option Str) : Bool :=
  match o with
  | none => false
  | some s => !s.isEmpty

/-- The fields the SMS webhook reads from `req.body`; each may be absent. -/
structure SmsRequest where
  From : Option Str
  To : Option Str
  Body : Option Str

/-- Type tag of a broadcast event record. -/
inductive EventType where
  | inbound
  | outbound
deriving DecidableEq

/-- An object passed to `broadcast` (src/unnamed/part_000 lines 227-228):
`{type, from, to, body}`. `from` is a Lean keyword, so the field is `fromNum`. -/
structure EventRecord where
  type : EventType
  fromNum : Str
  toNum : Str
  body : Str
deriving DecidableEq

/-- One `sendTwilioSms(to, from, body)` call, i.e. one Twilio
`messages.create({to, from, body})`. -/
structure SendCall where
  toNum : Str
  fromNum : Str
  body : Str
deriving DecidableEq

/-- Outcome of the Twilio send: resolved or rejected. -/
inductive SendOutcome where
  | ok
  | err
deriving DecidableEq

/-- The externally visible actions of one SMS webhook turn: the immediate
HTTP response, the send calls made, the records broadcast, and how many
completion-provider calls were made. -/
structure SmsTurnResult where
  status : Nat
  ackBody : Str
  sends : List SendCall
  broadcasts : List EventRecord
  completionCalls : Nat
deriving DecidableEq

/-- The handler of `app.post('/twilio/inbound')` (src/unnamed/part_000 lines
210-232) as a function of the request fields and the provider outcomes.
Validation failure answers 400 before any provider call; otherwise the
transport is acknowledged with 200 `<Response></Response>` and the turn runs:
one completion, one send `sendTwilioSms(from, to, reply)` (so the send's `to`
is the inbound `From` and its `from` the inbound `To`), then the inbound and
outbound broadcasts. A rejected send is caught after the send, so both
broadcasts are skipped. -/
def smsInboundHandler (req : SmsRequest) (po : SmsProviderOutcome)
    (so : SendOutcome) : SmsTurnResult :=
  if !truthy req.From || !truthy req.To || !truthy req.Body then
    ⟨400, w "Invalid request", [], [], 0⟩
  else
    let fromNum := req.From.getD []
    let toNum := req.To.getD []
    let body := req.Body.getD []
    let reply := generateClaudeResponse po
    match so with
    | SendOutcome.ok =>
      ⟨200, w "<Response></Response>", [⟨fromNum, toNum, reply⟩],
        [⟨EventType.inbound, fromNum, toNum, body⟩,
         ⟨EventType.outbound, toNum, fromNum, reply⟩], 1⟩
    | SendOutcome.err =>
      ⟨200, w "<Response></Response>", [⟨fromNum, toNum, reply⟩], [], 1⟩

/-- Outcome of `tts.generateAudio` as observed by its callers: a resolved
URL, a resolved null, or a thrown error (the filesystem and hashing calls
sitting outside the function's `try` block can throw). -/
inductive TtsOutcome where
  | url (u : Str)
  | noUrl
  | thrown
deriving DecidableEq

/-- The XML declaration shared by the voice markup documents. -/
def xmlHeader : Str := w "<?xml version=\"1.0\" encoding=\"UTF-8\"?>"

/-- The Play-form TwiML of `/voice/ai` (src/app.js line 34). -/
def playDoc (u : Str) : Str :=
  xmlHeader ++ w "<Response><Play>" ++ u ++ w "</Play></Response>"

/-- The Say-form TwiML of `/voice/ai` (src/app.js line 35). -/
def sayDoc (t : Str) : Str :=
  xmlHeader ++ w "<Response><Say voice=\"alice\">" ++ t ++ w "</Say></Response>"

/-- The fixed apology TwiML of the route's catch block (src/app.js line 41). -/
def apologyDoc : Str :=
  xmlHeader ++ w "<Response><Say>I apologize, but I need to transfer you. One moment.</Say></Response>"

/-- The externally visible result of one voice webhook turn. -/
structure VoiceTurnResult where
  status : Nat
  body : Str
  completionCalls : Nat
deriving DecidableEq

/-- The `/voice/ai` route (src/app.js lines 27-43) behind
`security.validateTwilio` (src/security.js lines 9-17), as a function of the
CallSid field and the provider outcomes. The middleware rejects a falsy
CallSid with 400 before the handler runs; `getCompletion` never throws, so
the route's catch is reached exactly when audio resolution throws. -/
def voiceAiHandler (callSid : Option Str) (po : VoiceProviderOutcome)
    (tto : TtsOutcome) : VoiceTurnResult :=
  if !truthy callSid then ⟨400, w "Invalid request", 0⟩
  else
    match tto with
    | TtsOutcome.thrown => ⟨200, apologyDoc, 1⟩
    | TtsOutcome.url u => ⟨200, playDoc u, 1⟩
    | TtsOutcome.noUrl => ⟨200, sayDoc (getCompletion po).text, 1⟩

/-- One frame written back on the relay socket: either the reply object
`{text, audioUrl, quote}` or the error object `{error}`. -/
inductive RelayFrame where
  | reply (text : Str) (audioUrl : Option Str) (quote : Option Quote)
  | errorFrame (error : Str)
deriving DecidableEq

/-- The `ws.on('message')` handler of the relay socket (src/app.js lines
87-107), returning the list of frames written back. `parsed` is the result of
`JSON.parse(data)`: `none` when parsing throws, otherwise the decoded frame's
optional `speech.text` (which only feeds the external provider). The
completion cannot throw; audio resolution is only attempted when the
completion text is truthy, and when it throws the catch writes the error
frame. -/
def relayMessageHandler (parsed : Option (Option Str)) (po : VoiceProviderOutcome)
    (tto : TtsOutcome) : List RelayFrame :=
  match parsed with
  | none => [RelayFrame.errorFrame (w "Processing failed")]
  | some _speechText =>
    let completion := streamCompletion po
    if completion.text.isEmpty then
      [RelayFrame.reply completion.text none completion.quote]
    else
      match tto with
      | TtsOutcome.thrown => [RelayFrame.errorFrame (w "Processing failed")]
      | TtsOutcome.url u => [RelayFrame.reply completion.text (some u) completion.quote]
      | TtsOutcome.noUrl => [RelayFrame.reply completion.text none completion.quote]

/-- C3: for an inbound SMS event with all of From, To, Body present, the turn
performs exactly one send, whose destination is the inbound From and whose
originating address is the inbound To, and when the send completes the turn
broadcasts exactly two records: one inbound, then one outbound. -/
theorem smsInboundHandler_spec :
    ∀ (req : SmsRequest) (po : SmsProviderOutcome) (so : SendOutcome),
      truthy req.From = true → truthy req.To = true → truthy req.Body = true →
      (smsInboundHandler req po so).sends =
        [⟨req.From.getD [], req.To.getD [], generateClaudeResponse po⟩] ∧
      (so = SendOutcome.ok →
        (smsInboundHandler req po so).broadcasts =
          [⟨EventType.inbound, req.From.getD [], req.To.getD [], req.Body.getD []⟩,
           ⟨EventType.outbound, req.To.getD [], req.From.getD [], generateClaudeResponse po⟩]) := by
  intro req po so h1 h2 h3
  cases so with
  | ok => exact ⟨by simp [smsInboundHandler, h1, h2, h3], fun _ => by simp [smsInboundHandler, h1, h2, h3]⟩
  | err =>
    refine ⟨by simp [smsInboundHandler, h1, h2, h3], fun h => by cases h⟩

/-- Witness for C3 at the spec's example event. -/
theorem smsInboundHandler_spec_witness :
    (smsInboundHandler ⟨some (w "+1555"), some (w "+1777"), some (w "I want to book a cleaning")⟩
        (SmsProviderOutcome.ok (some (w "Sure!"))) SendOutcome.ok).sends =
      [⟨w "+1555", w "+1777", generateClaudeResponse (SmsProviderOutcome.ok (some (w "Sure!")))⟩] ∧
    (smsInboundHandler ⟨some (w "+1555"), some (w "+1777"), some (w "I want to book a cleaning")⟩
        (SmsProviderOutcome.ok (some (w "Sure!"))) SendOutcome.ok).broadcasts =
      [⟨EventType.inbound, w "+1555", w "+1777", w "I want to book a cleaning"⟩,
       ⟨EventType.outbound, w "+1777", w "+1555",
        generateClaudeResponse (SmsProviderOutcome.ok (some (w "Sure!")))⟩] :=
  have h := smsInboundHandler_spec
    ⟨some (w "+1555"), some (w "+1777"), some (w "I want to book a cleaning")⟩
    (SmsProviderOutcome.ok (some (w "Sure!"))) SendOutcome.ok (by decide) (by decide) (by decide)
  ⟨h.1, h.2 rfl⟩

/-- C8: an SMS webhook request with a falsy From, To or Body is answered 400
with no provider call and no send or broadcast, and a voice webhook request
with a falsy CallSid is answered 400 by the validation middleware with no
provider call. -/
theorem validation_reject_spec :
    (∀ (req : SmsRequest) (po : SmsProviderOutcome) (so : SendOutcome),
       (truthy req.From && truthy req.To && truthy req.Body) = false →
       smsInboundHandler req po so = ⟨400, w "Invalid request", [], [], 0⟩) ∧
    (∀ (sid : Option Str) (po : VoiceProviderOutcome) (tto : TtsOutcome),
       truthy sid = false →
       voiceAiHandler sid po tto = ⟨400, w "Invalid request", 0⟩) := by
  constructor
  · intro req po so h
    cases hF : truthy req.From <;> cases hT : truthy req.To <;> cases hB : truthy req.Body <;>
      simp_all [smsInboundHandler]
  · intro sid po tto h
    simp [voiceAiHandler, h]

/-- Witness for C8 at concrete requests. -/
theorem validation_reject_spec_witness :
    smsInboundHandler ⟨some (w "+1555"), some (w "+1777"), none⟩
        (SmsProviderOutcome.ok none) SendOutcome.ok =
      ⟨400, w "Invalid request", [], [], 0⟩ ∧
    voiceAiHandler none VoiceProviderOutcome.err TtsOutcome.noUrl =
      ⟨400, w "Invalid request", 0⟩ :=
  ⟨validation_reject_spec.1 _ _ _ (by decide),
   validation_reject_spec.2 _ _ _ (by decide)⟩

lemma ne_of_getElem?_ne {l₁ l₂ : Str} (n : Nat) (h : l₁[n]? ≠ l₂[n]?) : l₁ ≠ l₂ :=
  fun he => h (he ▸ rfl)

/-- The Say-form document is never equal to any Play-form document: the two
templates differ at index 49, where the directive name starts. -/
lemma sayDoc_ne_playDoc (t u : Str) : sayDoc t ≠ playDoc u := by
  apply ne_of_getElem?_ne 49
  have hs : (sayDoc t)[49]? = some 'S' := by
    show (((xmlHeader ++ w "<Response><Say voice=\"alice\">") ++ t) ++ w "</Say></Response>")[49]? =
      some 'S'
    have hlen : (xmlHeader ++ w "<Response><Say voice=\"alice\">").length = 67 := by decide
    rw [List.getElem?_append_left (by rw [List.length_append, hlen]; omega),
      List.getElem?_append_left (by rw [hlen]; omega)]
    decide
  have hp : (playDoc u)[49]? = some 'P' := by
    show (((xmlHeader ++ w "<Response><Play>") ++ u) ++ w "</Play></Response>")[49]? = some 'P'
    have hlen : (xmlHeader ++ w "<Response><Play>").length = 54 := by decide
    rw [List.getElem?_append_left (by rw [List.length_append, hlen]; omega),
      List.getElem?_append_left (by rw [hlen]; omega)]
    decide
  rw [hs, hp]
  decide

/-- C4 counterexample: with a valid CallSid, a provider success whose text is
the empty string, and no audio URL, `/voice/ai` returns the Say document with
an empty Say element — the claimed "Say element with non-empty text" fails,
because the voice-path completion returns the provider text verbatim. -/
theorem voiceAiHandler_empty_say :
    (voiceAiHandler (some (w "CA123")) (VoiceProviderOutcome.ok []) TtsOutcome.noUrl).body =
      xmlHeader ++ w "<Response><Say voice=\"alice\"></Say></Response>" ∧
    strContains
      (voiceAiHandler (some (w "CA123")) (VoiceProviderOutcome.ok []) TtsOutcome.noUrl).body
      (w "<Say voice=\"alice\"></Say>") = true := by
  constructor <;> decide

/-- C4 amended: when audio resolution yields no URL, the webhook returns the
Say-form markup built from the completion text — never equal to any Play-form
document — and that text is non-empty except when the provider itself
returned an empty reply (in particular it is non-empty on provider failure);
a thrown failure anywhere in the path yields the fixed apology document;
both fallback documents contain a Say element and no Play element. -/
theorem voiceAiHandler_spec :
    (∀ (sid : Option Str) (po : VoiceProviderOutcome), truthy sid = true →
       voiceAiHandler sid po TtsOutcome.noUrl = ⟨200, sayDoc (getCompletion po).text, 1⟩) ∧
    (∀ t u : Str, sayDoc t ≠ playDoc u) ∧
    (∀ po : VoiceProviderOutcome, (∀ t, po = VoiceProviderOutcome.ok t → t ≠ []) →
       (getCompletion po).text ≠ []) ∧
    (∀ (sid : Option Str) (po : VoiceProviderOutcome), truthy sid = true →
       voiceAiHandler sid po TtsOutcome.thrown = ⟨200, apologyDoc, 1⟩) ∧
    (strContains (sayDoc voiceFallback) (w "<Say") = true ∧
     strContains (sayDoc voiceFallback) (w "<Play") = false) ∧
    (strContains apologyDoc (w "<Say") = true ∧
     strContains apologyDoc (w "<Play") = false) := by
  refine ⟨?_, sayDoc_ne_playDoc, ?_, ?_, ⟨by decide, by decide⟩, ⟨by decide, by decide⟩⟩
  · intro sid po h
    simp [voiceAiHandler, h]
  · intro po hpo
    cases po with
    | ok t => exact hpo t rfl
    | err => show voiceFallback ≠ []; decide
  · intro sid po h
    simp [voiceAiHandler, h]

/-- Witness for C4 at concrete inputs. -/
theorem voiceAiHandler_spec_witness :
    voiceAiHandler (some (w "CA123")) VoiceProviderOutcome.err TtsOutcome.noUrl =
      ⟨200, sayDoc (getCompletion VoiceProviderOutcome.err).text, 1⟩ ∧
    sayDoc (w "hello") ≠ playDoc (w "http://a.test/x.mp3") ∧
    (getCompletion VoiceProviderOutcome.err).text ≠ [] ∧
    voiceAiHandler (some (w "CA123")) VoiceProviderOutcome.err TtsOutcome.thrown =
      ⟨200, apologyDoc, 1⟩ :=
  ⟨voiceAiHandler_spec.1 _ _ (by decide),
   voiceAiHandler_spec.2.1 (w "hello") (w "http://a.test/x.mp3"),
   voiceAiHandler_spec.2.2.1 VoiceProviderOutcome.err (fun _ h => nomatch h),
   voiceAiHandler_spec.2.2.2.1 _ _ (by decide)⟩

/-- C5: each handled relay frame writes back exactly one frame, and each
case is pinned to its output: unparseable frame data yields the fixed error
frame `{error: "Processing failed"}`; so does a thrown audio resolution
under a non-empty completion text; a successful turn yields the reply frame
`{text, audioUrl, quote}` built from the completion, with `audioUrl` the
resolved URL (null when resolution yielded none, and null without any
resolution attempt when the completion text is empty). The handler never
closes the connection (it only writes). -/
theorem relayMessageHandler_spec :
    (∀ (parsed : Option (Option Str)) (po : VoiceProviderOutcome) (tto : TtsOutcome),
       (relayMessageHandler parsed po tto).length = 1) ∧
    (∀ (po : VoiceProviderOutcome) (tto : TtsOutcome),
       relayMessageHandler none po tto = [RelayFrame.errorFrame (w "Processing failed")]) ∧
    (∀ (st : Option Str) (po : VoiceProviderOutcome),
       (streamCompletion po).text ≠ [] →
       relayMessageHandler (some st) po TtsOutcome.thrown =
         [RelayFrame.errorFrame (w "Processing failed")]) ∧
    (∀ (st : Option Str) (po : VoiceProviderOutcome) (u : Str),
       (streamCompletion po).text ≠ [] →
       relayMessageHandler (some st) po (TtsOutcome.url u) =
         [RelayFrame.reply (streamCompletion po).text (some u) (streamCompletion po).quote]) ∧
    (∀ (st : Option Str) (po : VoiceProviderOutcome),
       (streamCompletion po).text ≠ [] →
       relayMessageHandler (some st) po TtsOutcome.noUrl =
         [RelayFrame.reply (streamCompletion po).text none (streamCompletion po).quote]) ∧
    (∀ (st : Option Str) (po : VoiceProviderOutcome) (tto : TtsOutcome),
       (streamCompletion po).text = [] →
       relayMessageHandler (some st) po tto =
         [RelayFrame.reply (streamCompletion po).text none (streamCompletion po).quote]) := by
  have hne : ∀ po : VoiceProviderOutcome, (streamCompletion po).text ≠ [] →
      (streamCompletion po).text.isEmpty = false := by
    intro po h
    cases he : (streamCompletion po).text with
    | nil => exact absurd he h
    | cons a l => rfl
  refine ⟨?_, fun _ _ => rfl, ?_, ?_, ?_, ?_⟩
  · intro parsed po tto
    cases parsed with
    | none => rfl
    | some st =>
      by_cases h : (streamCompletion po).text.isEmpty = true
      · simp [relayMessageHandler, h]
      · rw [Bool.not_eq_true] at h
        cases tto <;> simp [relayMessageHandler, h]
  · intro st po h
    simp [relayMessageHandler, hne po h]
  · intro st po u h
    simp [relayMessageHandler, hne po h]
  · intro st po h
    simp [relayMessageHandler, hne po h]
  · intro st po tto h
    simp [relayMessageHandler, h]

/-- Witness for C5 at concrete inputs: a successful turn with a resolved
URL, a thrown audio resolution, and an unparseable frame. -/
theorem relayMessageHandler_spec_witness :
    relayMessageHandler (some (some (w "hi"))) VoiceProviderOutcome.err
        (TtsOutcome.url (w "http://a.test/x.mp3")) =
      [RelayFrame.reply (streamCompletion VoiceProviderOutcome.err).text
        (some (w "http://a.test/x.mp3")) (streamCompletion VoiceProviderOutcome.err).quote] ∧
    relayMessageHandler (some (some (w "hi"))) VoiceProviderOutcome.err TtsOutcome.thrown =
      [RelayFrame.errorFrame (w "Processing failed")] ∧
    relayMessageHandler none VoiceProviderOutcome.err TtsOutcome.noUrl =
      [RelayFrame.errorFrame (w "Processing failed")] :=
  ⟨relayMessageHandler_spec.2.2.2.1 (some (w "hi")) VoiceProviderOutcome.err
     (w "http://a.test/x.mp3") (by decide),
   relayMessageHandler_spec.2.2.1 (some (w "hi")) VoiceProviderOutcome.err (by decide),
   relayMessageHandler_spec.2.1 VoiceProviderOutcome.err TtsOutcome.noUrl⟩

/-- The environment of `tts.generateAudio` (src/tts.js): whether
ELEVENLABS_API_KEY is set, the RENDER_URL base, and the content-hash function
(`crypto.createHash('md5')...digest('hex')`, an external primitive modelled
as an abstract function of the exact text). -/
structure TtsEnv where
  hasApiKey : Bool
  renderUrl : Str
  hashOf : Str → Str

/-- The cache store: the set of hash keys that have an `.mp3` file in
CACHE_DIR. -/
structure TtsCache where
  keys : List Str
deriving DecidableEq

/-- Outcome of the ElevenLabs fetch: `ok` is a response with `response.ok`
true, whose bytes get written to the cache file; `fail` is a non-ok response
or a thrown fetch error (both paths end in `return null`). -/
inductive SynthOutcome where
  | ok
  | fail
deriving DecidableEq

/-- What one `generateAudio` call produces: its return value, the cache
afterwards, and how many times the synthesis provider was invoked. -/
structure TtsCallResult where
  url : Option Str
  cache : TtsCache
  synthCalls : Nat
deriving DecidableEq

/-- The URL returned for a cached hash: `RENDER_URL/audio/<hash>.mp3`. -/
def audioUrlFor (env : TtsEnv) (h : Str) : Str :=
  env.renderUrl ++ w "/audio/" ++ h ++ w ".mp3"

/-- `generateAudio` from src/tts.js lines 9-44 over the cache-store state:
return null at once when no API key is configured; return the cached URL
without a provider call when the text's hash is cached (and `skipCache` is
not set); otherwise invoke the provider once, caching the bytes and
returning the URL on success and returning null on failure. -/
def generateAudio (env : TtsEnv) (text : Str) (skipCache : Bool)
    (so : SynthOutcome) (st : TtsCache) : TtsCallResult :=
  if !env.hasApiKey then ⟨none, st, 0⟩
  else
    let textHash := env.hashOf text
    if st.keys.contains textHash && !skipCache then
      ⟨some (audioUrlFor env textHash), st, 0⟩
    else
      match so with
      | SynthOutcome.ok => ⟨some (audioUrlFor env textHash), ⟨textHash :: st.keys⟩, 1⟩
      | SynthOutcome.fail => ⟨none, st, 1⟩

/-- C7 counterexample: with no synthesis credential configured,
`generateAudio` returns null immediately (src/tts.js line 10) even when the
hash of the text is already in the cache — not the cached asset's URL, as the
claim states for every call whose hash is cached. -/
theorem generateAudio_nokey_cached_null :
    (generateAudio ⟨false, w "https://example.test", fun t => t⟩ (w "hello") false
        SynthOutcome.ok ⟨[w "hello"]⟩).url = none := rfl

/-- C7 amended: the cache key is the content hash of the exact reply text;
when a synthesis credential is configured, a call whose hash is cached (with
`skipCache` unset) returns the cached asset's URL with no provider
invocation; with no credential the call returns null with no provider
invocation; and in every configuration, two consecutive calls with the same
text, the first of which left the hash cached, invoke the provider at most
once between them. -/
theorem generateAudio_idempotent :
    (∀ (env : TtsEnv) (text : Str) (so : SynthOutcome) (st : TtsCache),
       env.hasApiKey = true → st.keys.contains (env.hashOf text) = true →
       generateAudio env text false so st =
         ⟨some (audioUrlFor env (env.hashOf text)), st, 0⟩) ∧
    (∀ (env : TtsEnv) (text : Str) (so : SynthOutcome) (st : TtsCache),
       env.hasApiKey = false →
       generateAudio env text false so st = ⟨none, st, 0⟩) ∧
    (∀ (env : TtsEnv) (text : Str) (so₁ so₂ : SynthOutcome) (st : TtsCache),
       ((generateAudio env text false so₁ st).cache).keys.contains (env.hashOf text) = true →
       (generateAudio env text false so₁ st).synthCalls +
         (generateAudio env text false so₂
           ((generateAudio env text false so₁ st).cache)).synthCalls ≤ 1) := by
  refine ⟨?_, ?_, ?_⟩
  · intro env text so st hk hc
    have hmem : env.hashOf text ∈ st.keys := by simpa using hc
    simp [generateAudio, hk, hmem]
  · intro env text so st hk
    simp [generateAudio, hk]
  · intro env text so₁ so₂ st hcached
    by_cases hk : env.hasApiKey = true
    · by_cases hmem : env.hashOf text ∈ st.keys
      · simp [generateAudio, hk, hmem]
      · cases so₁ with
        | ok => simp [generateAudio, hk, hmem]
        | fail =>
          exfalso
          apply hmem
          have hst : (generateAudio env text false SynthOutcome.fail st).cache = st := by
            simp [generateAudio, hk, hmem]
          rw [hst] at hcached
          simpa using hcached
    · rw [Bool.not_eq_true] at hk
      simp [generateAudio, hk]

/-- Witness for C7 at concrete inputs (identity as the concrete hash). -/
theorem generateAudio_idempotent_witness :
    generateAudio ⟨true, w "https://example.test", fun t => t⟩ (w "hi") false
        SynthOutcome.ok ⟨[w "hi"]⟩ =
      ⟨some (audioUrlFor ⟨true, w "https://example.test", fun t => t⟩ (w "hi")),
        ⟨[w "hi"]⟩, 0⟩ ∧
    generateAudio ⟨false, w "https://example.test", fun t => t⟩ (w "hi") false
        SynthOutcome.ok ⟨[]⟩ = ⟨none, ⟨[]⟩, 0⟩ ∧
    (generateAudio ⟨true, w "https://example.test", fun t => t⟩ (w "hi") false
        SynthOutcome.ok ⟨[]⟩).synthCalls +
      (generateAudio ⟨true, w "https://example.test", fun t => t⟩ (w "hi") false
        SynthOutcome.ok
        ((generateAudio ⟨true, w "https://example.test", fun t => t⟩ (w "hi") false
          SynthOutcome.ok ⟨[]⟩).cache)).synthCalls ≤ 1 :=
  ⟨generateAudio_idempotent.1 _ _ _ _ rfl (by decide),
   generateAudio_idempotent.2.1 _ _ _ _ rfl,
   generateAudio_idempotent.2.2 ⟨true, w "https://example.test", fun t => t⟩ (w "hi")
     SynthOutcome.ok SynthOutcome.ok ⟨[]⟩ (by decide)⟩
